import Mathlib

/-!
Verification of the smauto session manager (src/manager.ts, src/index.ts).

The TypeScript source is shallowly embedded below.  Numeric telemetry and
prices are modelled as exact rationals (ℚ); the JavaScript float operations
involved (division, addition, comparison) are exact on the small decimal
values the claims quantify over, and every comparison in the claims has a
wide margin.  GPU telemetry lines are modelled after the
`line.split(',')` + `parseFloat` step: a line is the list of its parsed
numeric cells.  Strings are Lean strings; `toLowerCase()` is modelled by
mapping `Char.toLower` over the characters, which agrees with JavaScript
on the ASCII GPU names involved.
-/

namespace Smauto

/-- Models JavaScript `String.prototype.toLowerCase` (ASCII inputs). -/
def toLowerStr (s : String) : String := ⟨s.data.map Char.toLower⟩

/-- Is `pat` a prefix of the first list? (helper for `stringIncludes`). -/
def startsWithList : List Char → List Char → Bool
  | _, [] => true
  | [], _ :: _ => false
  | a :: as, b :: bs => a = b && startsWithList as bs

/-- Does the pattern occur anywhere in the first list? (helper for `stringIncludes`). -/
def containsList : List Char → List Char → Bool
  | [], pat => startsWithList [] pat
  | c :: rest, pat => startsWithList (c :: rest) pat || containsList rest pat

/-- Models JavaScript `String.prototype.includes`. -/
def stringIncludes (s pat : String) : Bool := containsList s.data pat.data

/-- The hardcoded rated-TDP table of manager.ts lines 10-27 (watts, by
lowercased GPU model name). -/
def tdp : List (String × ℚ) :=
  [("rtx 4090", 450),
   ("rtx 4080 super", 320),
   ("rtx 4080", 320),
   ("rtx 4070 ti super", 285),
   ("rtx 4070 ti", 285),
   ("rtx 4070 super", 220),
   ("rtx 4070", 200),
   ("rtx 4060 ti", 160),
   ("rtx 3090 ti", 450),
   ("rtx 3090", 350),
   ("rtx 3080 ti", 350),
   ("rtx 3080", 320),
   ("rtx 3070 ti", 290),
   ("rtx 3070", 220),
   ("rtx 3060 ti", 200),
   ("rtx 3060", 170)]

/-- JavaScript `tdp[gpuName]`: `none` models `undefined`. -/
def tdpLookup (gpuName : String) : Option ℚ :=
  (tdp.find? (fun p => p.1 == gpuName)).map (fun p => p.2)

/-- The fields of vastai.ts `InstanceDetail` that the manager logic reads
(remaining fields are irrelevant to the embedded functions). -/
structure InstanceDetail where
  id : Nat
  machine_id : Nat
  public_ipaddr : String
  direct_port_start : Nat
  gpu_name : String
  actual_status : String
deriving DecidableEq

/-- manager.ts `SSHTunnel`: a live local port-forward process. -/
structure SSHTunnel where
  pid : Nat
  tunnelPort : Nat
  port : Nat
  host : String
deriving DecidableEq

/-- manager.ts `Session` (field `instance` is a Lean keyword, renamed `inst`). -/
structure Session where
  inst : InstanceDetail
  sshTunnel : Option SSHTunnel
deriving DecidableEq

/-- The fields of a marketplace `Offer` read by the price-efficiency filter
of `createNewInstance` (manager.ts lines 162-165). -/
structure Offer where
  id : Nat
  machine_id : Nat
  gpu_name : String
  total_flops : ℚ
  dph_total : ℚ
deriving DecidableEq

/-- Threshold used for offers whose GPU name includes "4090"
(manager.ts line 164): `82.6 / (max3090Price / 0.6)`. -/
def topTierThreshold (max3090Price : ℚ) : ℚ := (82.6 : ℚ) / (max3090Price / (0.6 : ℚ))

/-- Threshold used for all other offers (manager.ts line 165): `35.3 / max3090Price`. -/
def otherThreshold (max3090Price : ℚ) : ℚ := (35.3 : ℚ) / max3090Price

/-- The price-efficiency filter of `createNewInstance` (manager.ts lines 162-165). -/
def priceEfficient (max3090Price : ℚ) (offer : Offer) : Bool :=
  if stringIncludes offer.gpu_name "4090" then
    decide (offer.total_flops / offer.dph_total > topTierThreshold max3090Price)
  else
    decide (offer.total_flops / offer.dph_total > otherThreshold max3090Price)

/-- One telemetry line after `split(',')` and `parseFloat` of both cells:
`some (powerDraw / powerLimit)` for a two-cell line, `none` otherwise
(a line with `cells.length !== 2` is skipped by the monitor). -/
def lineUtil : List ℚ → Option ℚ
  | [power, limit] => some (power / limit)
  | _ => none

/-- The condition `tdp[gpuName] && tdp[gpuName] > limit` of manager.ts
line 101 (JavaScript truthiness: a 0 entry would be falsy). -/
def underpoweredCheck (tdpOf : Option ℚ) (limit : ℚ) : Bool :=
  match tdpOf with
  | some t => decide (t ≠ 0) && decide (limit < t)
  | none => false

/-- The per-line loop of `monitor` (manager.ts lines 93-107): collect
`power / limit` utilizations in order; on the first underpowered GPU stop
(`break`) and report the eviction flag.  Returns the utilizations gathered
before the break together with the flag. -/
def processLines (tdpOf : Option ℚ) : List (List ℚ) → List ℚ × Bool
  | [] => ([], false)
  | line :: rest =>
    match line with
    | [power, limit] =>
      if underpoweredCheck tdpOf limit then ([], true)
      else
        let r := processLines tdpOf rest
        (power / limit :: r.1, r.2)
    | _ => processLines tdpOf rest

/-- `xs.reduce((a, b) => a + b, 0) / xs.length` as used throughout `monitor`. -/
def average (l : List ℚ) : ℚ := l.sum / (l.length : ℚ)

/-- One push into the per-instance usage window (manager.ts lines 113-116):
append, then `shift()` once if the length exceeds 60. -/
def updateUsage (usage : List ℚ) (sample : ℚ) : List ℚ :=
  let pushed := usage ++ [sample]
  if pushed.length > 60 then pushed.tail else pushed

/-- The low-average eviction condition of manager.ts line 118, evaluated on
the post-push window. -/
def underutilized (threshold : ℚ) (usage : List ℚ) : Bool :=
  decide (usage.length > 30) && decide (average usage < threshold)

/-- Observable side effects of one `monitor` pass: `evict` is
`blockAndTerminate` (manager.ts lines 203-207: block machine id, then
terminate the instance); `terminate` is the plain termination of an exited
instance (line 126, no blocking). -/
inductive MonitorEvent where
  | evict (instanceId : Nat)
  | terminate (instanceId : Nat)
deriving DecidableEq

/-- The result of the `nvidia-smi` query over SSH, after parsing:
whether stdout includes the device-handle error text, and the parsed lines. -/
structure TelemetryResult where
  deviceHandleError : Bool
  lines : List (List ℚ)
deriving DecidableEq

/-- The body of `monitor`'s per-session loop (manager.ts lines 76-128):
skip tunnel-less sessions; evict on device-handle error; evict on the first
underpowered GPU (breaking the line loop); push the average utilization and
evict when the window is longer than 30 with average below the threshold;
finally terminate (without blocking) an exited instance.  Returns the emitted
events in program order and the updated usage window. -/
def monitorSession (utilizationThreshold : ℚ) (sess : Session)
    (telemetry : TelemetryResult) (usage : List ℚ) :
    List MonitorEvent × List ℚ :=
  match sess.sshTunnel with
  | none => ([], usage)
  | some _ =>
    let ev1 : List MonitorEvent :=
      if telemetry.deviceHandleError then [MonitorEvent.evict sess.inst.id] else []
    let pl := processLines (tdpLookup (toLowerStr sess.inst.gpu_name)) telemetry.lines
    let ev2 : List MonitorEvent := if pl.2 then [MonitorEvent.evict sess.inst.id] else []
    let step3 : List MonitorEvent × List ℚ :=
      if pl.1.isEmpty then ([], usage)
      else
        let usage1 := updateUsage usage (average pl.1)
        (if underutilized utilizationThreshold usage1 then [MonitorEvent.evict sess.inst.id]
         else [], usage1)
    let ev4 : List MonitorEvent :=
      if sess.inst.actual_status = "exited" then [MonitorEvent.terminate sess.inst.id] else []
    (ev1 ++ ev2 ++ step3.1 ++ ev4, step3.2)

/-- The whole `monitor` pass: the `for (let session of this.sessions)` loop,
threading the per-instance usage store (`this.usage`, keyed by instance id).
The loop body never returns early: every session is processed. -/
def monitorAll (utilizationThreshold : ℚ) :
    List (Session × TelemetryResult) → (Nat → List ℚ) → List MonitorEvent
  | [], _ => []
  | (s, tel) :: rest, usage =>
    let r := monitorSession utilizationThreshold s tel (usage s.inst.id)
    r.1 ++ monitorAll utilizationThreshold rest
      (fun id => if id = s.inst.id then r.2 else usage id)

/-- Number of `blockAndTerminate` invocations for a given instance id in an
event list. -/
def countEvict (instanceId : Nat) : List MonitorEvent → Nat
  | [] => 0
  | MonitorEvent.evict i :: rest =>
    (if i = instanceId then 1 else 0) + countEvict instanceId rest
  | MonitorEvent.terminate _ :: rest => countEvict instanceId rest

/-- Feeding a sequence of samples into an initially empty usage window. -/
def feedSamples (samples : List ℚ) : List ℚ := samples.foldl updateUsage []

/-- The matching predicate of reconciliation (manager.ts lines 346 and 353):
the session's instance address/port equal the tunnel's host/remote port. -/
def tunnelMatches (i : InstanceDetail) (t : SSHTunnel) : Bool :=
  i.public_ipaddr == t.host && i.direct_port_start == t.port

/-- Result of a reconciliation pass: the tunnels whose processes were killed
as orphans, and the rebuilt session list. -/
structure ReconcileResult where
  killedTunnels : List SSHTunnel
  sessions : List Session
deriving DecidableEq

/-- `updateSessions` (manager.ts lines 295-361) after the process-table
parse: build one tunnel-less session per instance; kill every tunnel with no
matching session (lines 344-350); attach to each session the first tunnel
matching its address/port, if any (lines 352-358). -/
def updateSessions (instances : List InstanceDetail) (sshTunnels : List SSHTunnel) :
    ReconcileResult :=
  let sessions0 : List Session := instances.map (fun i => { inst := i, sshTunnel := none })
  let killed := sshTunnels.filter (fun t => !(sessions0.any (fun s => tunnelMatches s.inst t)))
  let sessions1 := sessions0.map (fun s =>
    match sshTunnels.find? (fun t =>
        t.host == s.inst.public_ipaddr && t.port == s.inst.direct_port_start) with
    | some t => { s with sshTunnel := some t }
    | none => s)
  { killedTunnels := killed, sessions := sessions1 }

/-- `this.sessions.some(session => session.sshTunnel?.tunnelPort === i)`
(manager.ts line 271). -/
def tunnelPortUsed (sessions : List Session) (i : Nat) : Bool :=
  sessions.any (fun s => s.sshTunnel.map (fun t => t.tunnelPort) == some i)

/-- The port-scanning loop of `createTunnels` (manager.ts lines 269-276):
starting from 10001, skip used ports; 0 is the not-found sentinel. -/
def scanTunnelPort (sessions : List Session) : Nat → Nat → Nat
  | _, 0 => 0
  | i, fuel + 1 =>
    if tunnelPortUsed sessions i then scanTunnelPort sessions (i + 1) fuel else i

/-- Tunnel local-port allocation (manager.ts lines 269-279): scan the range
`[10001, maxSessions + 10000]`; throw `No available tunnel port` when the
sentinel survives. -/
def allocateTunnelPort (maxSessions : Nat) (sessions : List Session) : Except String Nat :=
  let p := scanTunnelPort sessions 10001 maxSessions
  if p = 0 then Except.error "No available tunnel port" else Except.ok p

/-- The port range `[10001, maxSessions + 10000]` as a list. -/
def portRange (maxSessions : Nat) : List Nat :=
  (List.range maxSessions).map (fun k => 10001 + k)

/-- Outcome of one iteration of the Fleet Controller loop body
(manager.ts lines 58-63): either every awaited step resolved, or some step
rejected with an error message. -/
inductive CycleOutcome where
  | ok
  | err (msg : String)
deriving DecidableEq

/-- The `while (true)` loop of `run` (manager.ts lines 57-64), observed for
`fuel` iterations: the body has no try/catch, so the first rejected cycle
propagates out of the loop.  Returns the number of cycles that ran and the
escaping error, if any. -/
def runLoop (cycles : Nat → CycleOutcome) : Nat → Nat → Nat × Option String
  | _, 0 => (0, none)
  | i, fuel + 1 =>
    match cycles i with
    | CycleOutcome.ok =>
      let r := runLoop cycles (i + 1) fuel
      (r.1 + 1, r.2)
    | CycleOutcome.err m => (1, some m)

/-- Fate of the process (index.ts lines 10-14): `running` while the loop is
alive; `exitedAfterLogging` once an error escapes `run()` and the module
top-level catch logs it — nothing restarts the loop afterwards. -/
inductive ProcessOutcome where
  | running
  | exitedAfterLogging (msg : String)
deriving DecidableEq

/-- The module top level of index.ts: `try { await manager.run() } catch(e)
{ logger.error(e) }` — the only catch is outside the loop. -/
def moduleMain (cycles : Nat → CycleOutcome) (fuel : Nat) : ProcessOutcome :=
  match (runLoop cycles 0 fuel).2 with
  | some m => ProcessOutcome.exitedAfterLogging m
  | none => ProcessOutcome.running

/-- Observable file/loop effects of `run` startup (manager.ts lines 41-65). -/
inductive Effect where
  | readBlockedMachines
  | readThrottledIPs
  | sleepMs (ms : Nat)
  | cycleBody (n : Nat)
deriving DecidableEq

/-- `loadThrottledIPs` (manager.ts lines 67-73) reads throttled_ips.txt once. -/
def loadThrottledIPsTrace : List Effect := [Effect.readThrottledIPs]

/-- The async arrow function of manager.ts lines 49-54: were it invoked, each
of its iterations would sleep 10 s and re-read the throttled-IP file. -/
def throttledReloadLoop (iterations : Nat) : List Effect :=
  (List.range iterations).flatMap (fun _ => Effect.sleepMs 10000 :: loadThrottledIPsTrace)

/-- The main `while (true)` loop of `run`, fuel-bounded: each iteration runs
the cycle body then sleeps 60 s. -/
def fleetLoopTrace : Nat → List Effect
  | 0 => []
  | n + 1 => Effect.cycleBody n :: Effect.sleepMs 60000 :: fleetLoopTrace n

/-- Effect trace of `run` (manager.ts lines 41-65) over `cycles` iterations:
read the blocklist, load the throttled IPs once, then — mirroring the source
exactly — construct the periodic-reload closure WITHOUT invoking it (the
arrow function expression on lines 49-54 is a bare expression statement, so
its body never runs), and enter the fleet loop. -/
def runTrace (cycles : Nat) : List Effect :=
  Effect.readBlockedMachines :: loadThrottledIPsTrace ++
    (let _unusedReloadClosure := throttledReloadLoop
     fleetLoopTrace cycles)

/-- Number of reads of throttled_ips.txt in an effect trace. -/
def countReads : List Effect → Nat
  | [] => 0
  | Effect.readThrottledIPs :: rest => 1 + countReads rest
  | _ :: rest => countReads rest

/-- Concrete inputs used by counterexamples and witnesses below. -/
def tun9 : SSHTunnel := { pid := 111, tunnelPort := 10001, port := 4022, host := "1.2.3.4" }

/-- A running, tunneled RTX 3090 session (rated TDP 350 W). -/
def sess9 : Session :=
  { inst := { id := 5, machine_id := 55, public_ipaddr := "1.2.3.4",
              direct_port_start := 4022, gpu_name := "RTX 3090",
              actual_status := "running" },
    sshTunnel := some tun9 }

/-- A running, tunneled session with a GPU outside the TDP table. -/
def sess10 : Session :=
  { inst := { id := 6, machine_id := 66, public_ipaddr := "2.3.4.5",
              direct_port_start := 4023, gpu_name := "H100",
              actual_status := "running" },
    sshTunnel := some { pid := 112, tunnelPort := 10002, port := 4023, host := "2.3.4.5" } }

/-- A running, tunneled RTX 4090 session (rated TDP 450 W). -/
def sess2c : Session :=
  { inst := { id := 7, machine_id := 70, public_ipaddr := "9.9.9.9",
              direct_port_start := 4000, gpu_name := "RTX 4090",
              actual_status := "running" },
    sshTunnel := some { pid := 222, tunnelPort := 10001, port := 4000, host := "9.9.9.9" } }

/-- Telemetry for sess2c: first GPU healthy at 10% power, second GPU
underpowered (limit 300 W, rated 450 W). -/
def tel2c : TelemetryResult := { deviceHandleError := false, lines := [[45, 450], [45, 300]] }

/-- Usage store holding thirty 10%-utilization samples for instance 7. -/
def usageStore2c : Nat → List ℚ := fun _ => List.replicate 30 ((1 : ℚ) / 10)

/-- An instance at (10.0.0.5, 4022), mirroring the spec's reconciliation example. -/
def inst4 : InstanceDetail :=
  { id := 1, machine_id := 10, public_ipaddr := "10.0.0.5", direct_port_start := 4022,
    gpu_name := "RTX 3090", actual_status := "running" }

/-- Two distinct live tunnel processes to the same (host, remote port). -/
def tun4a : SSHTunnel := { pid := 100, tunnelPort := 10001, port := 4022, host := "10.0.0.5" }

/-- Second (duplicate) tunnel process to (10.0.0.5, 4022). -/
def tun4b : SSHTunnel := { pid := 200, tunnelPort := 10002, port := 4022, host := "10.0.0.5" }

/-- A tunnel to (10.0.0.5, 4022) with no matching instance. -/
def orphanTunnel : SSHTunnel :=
  { pid := 300, tunnelPort := 10003, port := 4022, host := "10.0.0.5" }

/-- An instance whose address does not match `orphanTunnel`. -/
def inst4other : InstanceDetail :=
  { id := 2, machine_id := 20, public_ipaddr := "10.0.0.6", direct_port_start := 4023,
    gpu_name := "RTX 3090", actual_status := "running" }

/-- Sessions occupying tunnel ports 10001 and 10002. -/
def portSessions : List Session :=
  [{ inst := inst4, sshTunnel := some tun4a },
   { inst := inst4other, sshTunnel := some { pid := 101, tunnelPort := 10002,
                                             port := 4023, host := "10.0.0.6" } }]

/-- Sessions occupying all of 10001, 10002, 10003 (maxSessions = 3). -/
def fullPortSessions : List Session :=
  portSessions ++
    [{ inst := { id := 3, machine_id := 30, public_ipaddr := "10.0.0.7",
                 direct_port_start := 4024, gpu_name := "RTX 3090",
                 actual_status := "running" },
       sshTunnel := some { pid := 102, tunnelPort := 10003, port := 4024,
                           host := "10.0.0.7" } }]

/-- A cycle schedule whose first iteration rejects, all later ones resolve. -/
def cyclesBoom : Nat → CycleOutcome :=
  fun i => if i = 0 then CycleOutcome.err "boom" else CycleOutcome.ok

/-- A 4090 offer with throughput/price ratio 200. -/
def offer4090demo : Offer :=
  { id := 1, machine_id := 1, gpu_name := "RTX 4090", total_flops := 200, dph_total := 1 }

/-- A 3090 offer with the same throughput/price ratio 200. -/
def offer3090demo : Offer :=
  { id := 2, machine_id := 2, gpu_name := "RTX 3090", total_flops := 200, dph_total := 1 }

/-! ### Helper lemmas and claim theorems -/

/-- Membership in the scanned port range. -/
theorem mem_portRange (maxSessions i : Nat) :
    i ∈ portRange maxSessions ↔ 10001 ≤ i ∧ i < 10001 + maxSessions := by
  simp only [portRange, List.mem_map, List.mem_range]
  constructor
  · rintro ⟨k, hk, rfl⟩
    omega
  · intro h
    exact ⟨i - 10001, by omega, by omega⟩

/-- The port scan either exhausts a fully used range (returning the 0
sentinel) or returns the first free port. -/
theorem scanTunnelPort_spec (sessions : List Session) :
    ∀ fuel start,
      (scanTunnelPort sessions start fuel = 0 ∧
        ∀ i, start ≤ i → i < start + fuel → tunnelPortUsed sessions i = true) ∨
      (start ≤ scanTunnelPort sessions start fuel ∧
        scanTunnelPort sessions start fuel < start + fuel ∧
        tunnelPortUsed sessions (scanTunnelPort sessions start fuel) = false ∧
        ∀ q, start ≤ q → q < scanTunnelPort sessions start fuel →
          tunnelPortUsed sessions q = true) := by
  intro fuel
  induction fuel with
  | zero =>
    intro start
    exact Or.inl ⟨rfl, fun i h1 h2 => absurd h2 (by omega)⟩
  | succ n ih =>
    intro start
    by_cases hu : tunnelPortUsed sessions start = true
    · have hscan : scanTunnelPort sessions start (n + 1) =
          scanTunnelPort sessions (start + 1) n := by
        simp [scanTunnelPort, hu]
      rcases ih (start + 1) with ⟨h0, hall⟩ | ⟨h1, h2, h3, h4⟩
      · left
        refine ⟨by rw [hscan]; exact h0, ?_⟩
        intro i hi1 hi2
        rcases Nat.eq_or_lt_of_le hi1 with rfl | hlt
        · exact hu
        · exact hall i (by omega) (by omega)
      · right
        rw [hscan]
        refine ⟨by omega, by omega, h3, ?_⟩
        intro q hq1 hq2
        rcases Nat.eq_or_lt_of_le hq1 with rfl | hlt
        · exact hu
        · exact h4 q (by omega) hq2
    · have hu' : tunnelPortUsed sessions start = false := by
        revert hu
        cases tunnelPortUsed sessions start <;> simp
      have hscan : scanTunnelPort sessions start (n + 1) = start := by
        simp [scanTunnelPort, hu']
      right
      rw [hscan]
      exact ⟨Nat.le_refl start, by omega, hu', fun q h1 h2 => absurd h2 (by omega)⟩

/-- C5 (confirmed): tunnel local-port allocation returns the lowest port in
the fixed range [10001, 10000 + maxSessions] not used by any existing
session's tunnel, and raises the fatal `No available tunnel port` error
exactly when every port of the range is in use. -/
theorem allocateTunnelPort_lowest_free (maxSessions : Nat) (sessions : List Session) :
    (allocateTunnelPort maxSessions sessions = Except.error "No available tunnel port" ↔
      ∀ i ∈ portRange maxSessions, tunnelPortUsed sessions i = true) ∧
    (∀ p, allocateTunnelPort maxSessions sessions = Except.ok p →
      p ∈ portRange maxSessions ∧ tunnelPortUsed sessions p = false ∧
      ∀ q ∈ portRange maxSessions, q < p → tunnelPortUsed sessions q = true) := by
  rcases scanTunnelPort_spec sessions maxSessions 10001 with ⟨h0, hall⟩ | ⟨h1, h2, h3, h4⟩
  · have halloc : allocateTunnelPort maxSessions sessions =
        Except.error "No available tunnel port" := by
      simp [allocateTunnelPort, h0]
    constructor
    · rw [halloc]
      constructor
      · intro _ i hi
        rw [mem_portRange] at hi
        exact hall i hi.1 hi.2
      · intro _
        rfl
    · intro p hp
      rw [halloc] at hp
      exact absurd hp (by simp)
  · have hne : scanTunnelPort sessions 10001 maxSessions ≠ 0 := by omega
    have halloc : allocateTunnelPort maxSessions sessions =
        Except.ok (scanTunnelPort sessions 10001 maxSessions) := by
      simp [allocateTunnelPort, hne]
    constructor
    · rw [halloc]
      constructor
      · intro h
        exact absurd h (by simp)
      · intro hall
        have hused := hall _ ((mem_portRange _ _).mpr ⟨h1, h2⟩)
        rw [h3] at hused
        exact absurd hused (by simp)
    · intro p hp
      rw [halloc] at hp
      injection hp with hpe
      subst hpe
      exact ⟨(mem_portRange _ _).mpr ⟨h1, h2⟩, h3,
        fun q hq hlt => h4 q ((mem_portRange _ _).mp hq).1 hlt⟩

/-- Witness for C5: with maxSessions = 3 and tunnels on 10001 and 10002 the
allocator yields 10003 (a free port), and with all three ports used it
raises the configuration error. -/
theorem allocateTunnelPort_lowest_free_witness :
    allocateTunnelPort 3 portSessions = Except.ok 10003 ∧
    tunnelPortUsed portSessions 10003 = false ∧
    allocateTunnelPort 3 fullPortSessions = Except.error "No available tunnel port" := by
  refine ⟨by rfl, ?_, ?_⟩
  · exact ((allocateTunnelPort_lowest_free 3 portSessions).2 10003 (by rfl)).2.1
  · exact (allocateTunnelPort_lowest_free 3 fullPortSessions).1.mpr (by decide)

/-- Tail of an append whose first part is nonempty. -/
theorem tail_append_left {α : Type} (l l' : List α) (h : l ≠ []) :
    (l ++ l').tail = l.tail ++ l' := by
  cases l with
  | nil => exact absurd rfl h
  | cons a t => simp

/-- Feeding a sample list into an empty window keeps only the last 60
samples, in order. -/
theorem feedSamples_eq_drop (samples : List ℚ) :
    feedSamples samples = samples.drop (samples.length - 60) := by
  induction samples using List.reverseRecOn with
  | nil => simp [feedSamples]
  | append_singleton xs x ih =>
    have hstep : feedSamples (xs ++ [x]) = updateUsage (feedSamples xs) x := by
      simp [feedSamples, List.foldl_append]
    rw [hstep, ih]
    by_cases h : xs.length < 60
    · have h1 : xs.length - 60 = 0 := by omega
      have h2 : (xs ++ [x]).length - 60 = 0 := by
        simp only [List.length_append, List.length_singleton]
        omega
      rw [h1, h2]
      have hc : ¬ ((xs ++ [x]).length > 60) := by
        simp only [List.length_append, List.length_singleton]
        omega
      simp only [updateUsage, List.drop_zero]
      rw [if_neg hc]
    · have hlen : (xs.drop (xs.length - 60)).length = 60 := by
        rw [List.length_drop]
        omega
      have hne : xs.drop (xs.length - 60) ≠ [] := by
        intro h0
        rw [h0] at hlen
        simp at hlen
      have hc : ((xs.drop (xs.length - 60)) ++ [x]).length > 60 := by
        simp only [List.length_append, List.length_singleton, hlen]
        omega
      simp only [updateUsage]
      rw [if_pos hc, tail_append_left _ _ hne, List.tail_drop]
      have h2 : (xs ++ [x]).length - 60 = xs.length - 60 + 1 := by
        simp only [List.length_append, List.length_singleton]
        omega
      rw [h2, List.drop_append_eq_append_drop]
      have h3 : xs.length - 60 + 1 - xs.length = 0 := by omega
      rw [h3, List.drop_zero]

/-- C8 (confirmed): after any sequence of sample appends the usage window
holds exactly the last min(n, 60) samples in order — the oldest samples are
dropped FIFO once the 60-sample capacity is exceeded. -/
theorem usage_window_fifo (samples : List ℚ) :
    feedSamples samples = samples.drop (samples.length - 60) ∧
    (feedSamples samples).length = min samples.length 60 := by
  refine ⟨feedSamples_eq_drop samples, ?_⟩
  rw [feedSamples_eq_drop samples, List.length_drop]
  omega

/-- The fleet loop body never reads the throttled-IP file. -/
theorem countReads_fleetLoop (n : Nat) : countReads (fleetLoopTrace n) = 0 := by
  induction n with
  | zero => rfl
  | succ k ih => simp [fleetLoopTrace, countReads, ih]

/-- C6 (code bug): however many fleet cycles elapse, throttled_ips.txt is
read exactly once — at startup.  The periodic-reload closure of manager.ts
lines 49-54 is constructed but never invoked, so no re-read ever happens,
contradicting the claimed fixed-schedule reload. -/
theorem throttled_ips_read_once (cycles : Nat) :
    countReads (runTrace cycles) = 1 := by
  simp [runTrace, loadThrottledIPsTrace, countReads, countReads_fleetLoop]

/-- The first rejected cycle stops the loop: if cycles before index `i`
resolve and cycle `i` rejects with `m`, the loop runs exactly `i + 1` cycle
bodies and then propagates `m`. -/
theorem runLoop_first_err (cycles : Nat → CycleOutcome) (m : String) :
    ∀ i fuel start, (∀ j, j < i → cycles (start + j) = CycleOutcome.ok) →
      cycles (start + i) = CycleOutcome.err m → i < fuel →
      runLoop cycles start fuel = (i + 1, some m) := by
  intro i
  induction i with
  | zero =>
    intro fuel start hok herr hlt
    cases fuel with
    | zero => omega
    | succ f =>
      rw [Nat.add_zero] at herr
      simp [runLoop, herr]
  | succ k ih =>
    intro fuel start hok herr hlt
    cases fuel with
    | zero => omega
    | succ f =>
      have h0 : cycles start = CycleOutcome.ok := by
        have h := hok 0 (by omega)
        rwa [Nat.add_zero] at h
      have hr : runLoop cycles (start + 1) f = (k + 1, some m) := by
        refine ih f (start + 1) ?_ ?_ (by omega)
        · intro j hj
          have h := hok (j + 1) (by omega)
          have he : start + (j + 1) = start + 1 + j := by omega
          rwa [he] at h
        · have he : start + (k + 1) = start + 1 + k := by omega
          rwa [he] at herr
      simp [runLoop, h0, hr]

/-- C1 (amended, proved): an error raised in any iteration of the Fleet
Controller loop is NOT caught inside the loop: it aborts the loop after
that iteration, is caught once by the module-level try/catch of index.ts,
logged, and the process ends — for ordinary operational failures just as
for fatal ones. -/
theorem error_exits_loop (cycles : Nat → CycleOutcome) (m : String) (i fuel : Nat)
    (hok : ∀ j, j < i → cycles j = CycleOutcome.ok)
    (herr : cycles i = CycleOutcome.err m)
    (hlt : i < fuel) :
    runLoop cycles 0 fuel = (i + 1, some m) ∧
    moduleMain cycles fuel = ProcessOutcome.exitedAfterLogging m := by
  have h : runLoop cycles 0 fuel = (i + 1, some m) := by
    refine runLoop_first_err cycles m i fuel 0 ?_ ?_ hlt
    · intro j hj
      simpa using hok j hj
    · simpa using herr
  exact ⟨h, by simp [moduleMain, h]⟩

/-- Witness for C1 (amended): with the first cycle rejecting with `boom`
and all later cycles fine, only one cycle body runs out of a budget of 5
and the process exits after logging. -/
theorem error_exits_loop_witness :
    runLoop cyclesBoom 0 5 = (1, some "boom") ∧
    moduleMain cyclesBoom 5 = ProcessOutcome.exitedAfterLogging "boom" := by
  exact error_exits_loop cyclesBoom "boom" 0 5 (fun j hj => absurd hj (by omega))
    (by rfl) (by omega)

/-- Counterexample for C1 as stated: cycle 1 would have resolved, yet after
cycle 0 rejects the loop performs no further iterations (only 1 of 5
budgeted cycle bodies runs) and the process exits after logging — the
error is not caught at the top of the loop and the loop does not proceed
to the next iteration. -/
theorem error_not_caught_inside_loop :
    cyclesBoom 1 = CycleOutcome.ok ∧
    runLoop cyclesBoom 0 5 = (1, some "boom") ∧
    moduleMain cyclesBoom 5 = ProcessOutcome.exitedAfterLogging "boom" := by
  exact ⟨by rfl, by rfl, by rfl⟩

/-- Counterexample for C3 as stated: at the default price ceiling 0.24, a
4090 offer and a non-4090 offer with the identical throughput/price ratio
200 are judged differently — the 4090 offer is REJECTED while the other is
accepted, so the 4090 threshold is not lower (easier) but higher. -/
theorem top_tier_threshold_not_lower :
    priceEfficient 0.24 offer4090demo = false ∧
    priceEfficient 0.24 offer3090demo = true ∧
    offer4090demo.total_flops / offer4090demo.dph_total =
      offer3090demo.total_flops / offer3090demo.dph_total := by
  refine ⟨?_, ?_, by norm_num [offer4090demo, offer3090demo]⟩
  · have h : stringIncludes offer4090demo.gpu_name "4090" = true := by decide
    simp only [priceEfficient, h, if_true]
    norm_num [topTierThreshold, offer4090demo]
  · have h : stringIncludes offer3090demo.gpu_name "4090" = false := by decide
    simp only [priceEfficient, h]
    norm_num [otherThreshold, offer3090demo]

/-- C3 (amended, proved): for every positive top-tier price ceiling, the
compute-throughput-to-price threshold applied to offers of the designated
top-tier GPU family ('4090') is strictly HIGHER (harder to exceed) than the
threshold applied to all other GPU families. -/
theorem top_tier_threshold_higher (p : ℚ) (hp : 0 < p) :
    otherThreshold p < topTierThreshold p := by
  unfold otherThreshold topTierThreshold
  rw [div_div_eq_mul_div]
  rw [div_lt_div_iff₀ hp hp]
  exact mul_lt_mul_of_pos_right (by norm_num) hp

/-- Witness for C3 (amended) at the default ceiling 0.24. -/
theorem top_tier_threshold_higher_witness :
    otherThreshold 0.24 < topTierThreshold 0.24 :=
  top_tier_threshold_higher 0.24 (by norm_num)

/-- Counterexample for C4 as stated: two live tunnel processes to the same
(host, remote port) matching a single instance — the duplicate `tun4b`
matches the instance's address/port, yet it is neither killed as an orphan
nor attached to any session, so not every matching tunnel is attached. -/
theorem duplicate_tunnel_not_attached :
    tunnelMatches inst4 tun4b = true ∧
    tun4b ∉ (updateSessions [inst4] [tun4a, tun4b]).killedTunnels ∧
    ∀ s ∈ (updateSessions [inst4] [tun4a, tun4b]).sessions, ¬ s.sshTunnel = some tun4b := by
  refine ⟨by decide, by decide, by decide⟩

/-- C4 (amended, proved): a reconciliation pass kills exactly the tunnels
matching no instance's (address, port); each rebuilt session carries the
FIRST discovered tunnel matching its instance's (address, port) — a later
duplicate is neither killed nor attached; a session with no matching tunnel
ends the pass with its tunnel unset, and every attached tunnel does match. -/
theorem updateSessions_reconcile (instances : List InstanceDetail) (tunnels : List SSHTunnel) :
    (∀ t ∈ tunnels,
      (t ∈ (updateSessions instances tunnels).killedTunnels ↔
        ∀ i ∈ instances, tunnelMatches i t = false)) ∧
    ((updateSessions instances tunnels).sessions =
      instances.map (fun i =>
        { inst := i,
          sshTunnel := tunnels.find? (fun t =>
            t.host == i.public_ipaddr && t.port == i.direct_port_start) })) ∧
    (∀ s ∈ (updateSessions instances tunnels).sessions,
      ((∀ t ∈ tunnels, tunnelMatches s.inst t = false) → s.sshTunnel = none) ∧
      (∀ t, s.sshTunnel = some t → t ∈ tunnels ∧ tunnelMatches s.inst t = true) ∧
      ((∃ t ∈ tunnels, tunnelMatches s.inst t = true) → ∃ t, s.sshTunnel = some t)) := by
  have hsess : (updateSessions instances tunnels).sessions =
      instances.map (fun i =>
        ({ inst := i,
           sshTunnel := tunnels.find? (fun t =>
             t.host == i.public_ipaddr && t.port == i.direct_port_start) } : Session)) := by
    simp only [updateSessions, List.map_map]
    congr 1
    funext i
    simp only [Function.comp]
    cases hf : tunnels.find? (fun t =>
        t.host == i.public_ipaddr && t.port == i.direct_port_start) <;> simp [hf]
  refine ⟨?_, hsess, ?_⟩
  · intro t htl
    simp only [updateSessions, List.mem_filter, htl, true_and]
    constructor
    · intro h i hi
      rw [Bool.not_eq_true', List.any_eq_false] at h
      have hone := h ⟨i, none⟩ (List.mem_map.mpr ⟨i, hi, rfl⟩)
      simpa using hone
    · intro h
      rw [Bool.not_eq_true', List.any_eq_false]
      intro s hs
      rcases List.mem_map.mp hs with ⟨i, hi, rfl⟩
      simpa using h i hi
  · intro s hs
    rw [hsess] at hs
    rcases List.mem_map.mp hs with ⟨i, hi, rfl⟩
    refine ⟨?_, ?_, ?_⟩
    · intro hnone
      simp only
      rw [List.find?_eq_none]
      intro t ht
      have hm := hnone t ht
      simp only [tunnelMatches] at hm
      intro hcon
      simp only [Bool.and_eq_true, beq_iff_eq] at hcon
      simp [hcon.1, hcon.2] at hm
    · intro t hsome
      simp only at hsome
      refine ⟨List.mem_of_find?_eq_some hsome, ?_⟩
      have hp := List.find?_some hsome
      simp only [Bool.and_eq_true, beq_iff_eq] at hp
      simp [tunnelMatches, hp.1.symm, hp.2.symm]
    · rintro ⟨t, ht, hm⟩
      simp only
      cases hf : tunnels.find? (fun t =>
          t.host == i.public_ipaddr && t.port == i.direct_port_start) with
      | some t' => exact ⟨t', rfl⟩
      | none =>
        rw [List.find?_eq_none] at hf
        have := hf t ht
        simp only [tunnelMatches, Bool.and_eq_true, beq_iff_eq] at hm this
        exact absurd (by simp [hm.1, hm.2] : (t.host == i.public_ipaddr &&
          t.port == i.direct_port_start) = true) (by simpa using this)

/-- Witness for C4 (amended): a tunnel to (10.0.0.5, 4022) with no matching
instance is killed as an orphan. -/
theorem updateSessions_reconcile_witness :
    orphanTunnel ∈ (updateSessions [inst4other] [orphanTunnel]).killedTunnels := by
  exact ((updateSessions_reconcile [inst4other] [orphanTunnel]).1 orphanTunnel
    (by simp)).mpr (by decide)

/-- Every rated TDP in the hardcoded table is positive. -/
theorem tdp_pos : ∀ p ∈ tdp, 0 < p.2 := by decide

/-- A successful TDP lookup returns a positive rating. -/
theorem tdpLookup_pos (g : String) (t : ℚ) (h : tdpLookup g = some t) : 0 < t := by
  unfold tdpLookup at h
  cases hf : tdp.find? (fun p => p.1 == g) with
  | none =>
    rw [hf] at h
    simp at h
  | some p =>
    rw [hf] at h
    simp at h
    rw [← h]
    exact tdp_pos p (List.mem_of_find?_eq_some hf)

/-- With no TDP table entry the line loop never reports underpowered and
collects every well-formed line's power/limit ratio. -/
theorem processLines_none (lines : List (List ℚ)) :
    processLines none lines = (lines.filterMap lineUtil, false) := by
  induction lines with
  | nil => rfl
  | cons line rest ih =>
    rcases line with _ | ⟨a, _ | ⟨b, _ | ⟨c, t⟩⟩⟩
    · simp [processLines, lineUtil, ih]
    · simp [processLines, lineUtil, ih]
    · simp [processLines, underpoweredCheck, lineUtil, ih]
    · simp [processLines, lineUtil, ih]

/-- The line loop stops at the first underpowered pair: the utilizations of
the earlier lines are kept, the flag is set, later lines are dropped. -/
theorem processLines_first_underpowered (tdpOf : Option ℚ) (pre post : List (List ℚ))
    (power limit : ℚ)
    (hpre : ∀ l ∈ pre, ∀ p li : ℚ, l = [p, li] → underpoweredCheck tdpOf li = false)
    (hbad : underpoweredCheck tdpOf limit = true) :
    processLines tdpOf (pre ++ [power, limit] :: post) = (pre.filterMap lineUtil, true) := by
  induction pre with
  | nil => simp [processLines, hbad]
  | cons l rest ih =>
    have hrest : ∀ l' ∈ rest, ∀ p li : ℚ, l' = [p, li] → underpoweredCheck tdpOf li = false :=
      fun l' h' => hpre l' (List.mem_cons_of_mem l h')
    rcases l with _ | ⟨a, _ | ⟨b, _ | ⟨c, t⟩⟩⟩
    · simpa [processLines, lineUtil] using ih hrest
    · simpa [processLines, lineUtil] using ih hrest
    · have hab : underpoweredCheck tdpOf b = false :=
        hpre [a, b] (List.mem_cons_self _ _) a b rfl
      simp [processLines, hab, lineUtil, ih hrest]
    · simpa [processLines, lineUtil] using ih hrest

/-- C9 (confirmed): when a session's GPU model has a known rated TDP and
some parsed (power, limit) pair reports a limit strictly below that rating
(the earlier pairs being healthy), the monitor evicts the instance
(block and terminate) regardless of its accumulated utilization history,
and the lines after the underpowered one are not processed. -/
theorem underpowered_immediate_eviction (th : ℚ) (sinst : InstanceDetail)
    (tun : SSHTunnel) (usage : List ℚ) (deviceDown : Bool)
    (t power limit : ℚ) (pre post : List (List ℚ))
    (ht : tdpLookup (toLowerStr sinst.gpu_name) = some t)
    (hpre : ∀ l ∈ pre, ∀ p li : ℚ, l = [p, li] → underpoweredCheck (some t) li = false)
    (hlim : limit < t) :
    MonitorEvent.evict sinst.id ∈
      (monitorSession th { inst := sinst, sshTunnel := some tun }
        ⟨deviceDown, pre ++ [power, limit] :: post⟩ usage).1 ∧
    processLines (some t) (pre ++ [power, limit] :: post) = (pre.filterMap lineUtil, true) := by
  have ht0 : (0 : ℚ) < t := tdpLookup_pos _ t ht
  have hbad : underpoweredCheck (some t) limit = true := by
    simp only [underpoweredCheck, Bool.and_eq_true, decide_eq_true_eq]
    exact ⟨ne_of_gt ht0, hlim⟩
  have hpl := processLines_first_underpowered (some t) pre post power limit hpre hbad
  refine ⟨?_, hpl⟩
  simp [monitorSession, ht, hpl, List.mem_append]

/-- Witness for C9, mirroring the spec's example: an RTX 3090 session
(rated 350 W) whose first GPU line reports a 300 W limit is evicted even
with a 40-sample high-utilization history, and the second line is dropped. -/
theorem underpowered_immediate_eviction_witness :
    MonitorEvent.evict 5 ∈
      (monitorSession (11/20) sess9 ⟨false, [[200, 300], [200, 350]]⟩
        (List.replicate 40 ((9 : ℚ)/10))).1 ∧
    processLines (some 350) [[200, 300], [200, 350]] = ([], true) := by
  exact underpowered_immediate_eviction (11/20) sess9.inst tun9
    (List.replicate 40 ((9 : ℚ)/10)) false 350 200 300 [] [[200, 350]]
    (by decide) (by intro l hl; exact absurd hl (List.not_mem_nil l)) (by norm_num)

/-- C10 (confirmed): for a session whose lowercased GPU name is not in the
hardcoded TDP table, the underpowered check can never set the eviction
flag, whatever power/limit values are reported; every well-formed line's
powerDraw/powerLimit sample is still collected, and the usage window is
updated with their average exactly as for known GPUs. -/
theorem unknown_gpu_never_underpowered (th : ℚ) (sinst : InstanceDetail) (tun : SSHTunnel)
    (tel : TelemetryResult) (usage : List ℚ)
    (hg : tdpLookup (toLowerStr sinst.gpu_name) = none) :
    processLines (tdpLookup (toLowerStr sinst.gpu_name)) tel.lines
      = (tel.lines.filterMap lineUtil, false) ∧
    (monitorSession th { inst := sinst, sshTunnel := some tun } tel usage).2
      = (if (tel.lines.filterMap lineUtil).isEmpty then usage
         else updateUsage usage (average (tel.lines.filterMap lineUtil))) := by
  have h1 : processLines (tdpLookup (toLowerStr sinst.gpu_name)) tel.lines
      = (tel.lines.filterMap lineUtil, false) := by
    rw [hg, processLines_none]
  refine ⟨h1, ?_⟩
  simp [monitorSession, h1]
  split <;> rfl

/-- Witness for C10: an H100 session (not in the table) reporting an
extreme pair (100 W draw at a 1 W limit) is never flagged underpowered and
its sample 100/1 enters the usage window. -/
theorem unknown_gpu_never_underpowered_witness :
    processLines (tdpLookup (toLowerStr sess10.inst.gpu_name)) [[100, 1]]
      = ([(100 : ℚ)/1], false) ∧
    (monitorSession (11/20) sess10 ⟨false, [[100, 1]]⟩ []).2
      = (if ([(100 : ℚ)/1] : List ℚ).isEmpty then ([] : List ℚ)
         else updateUsage [] (average [(100 : ℚ)/1])) := by
  exact unknown_gpu_never_underpowered (11/20) sess10.inst
    ⟨112, 10002, 4023, "2.3.4.5"⟩ ⟨false, [[100, 1]]⟩ [] (by decide)

/-- Sum of a constant list. -/
theorem sum_of_all_eq (l : List ℚ) (c : ℚ) (h : ∀ x ∈ l, x = c) :
    l.sum = (l.length : ℚ) * c := by
  induction l with
  | nil => simp
  | cons a tl ih =>
    have ha : a = c := h a (List.mem_cons_self a tl)
    have htl : ∀ x ∈ tl, x = c := fun x hx => h x (List.mem_cons_of_mem a hx)
    rw [List.sum_cons, ha, ih htl, List.length_cons]
    push_cast
    ring

/-- C7 (confirmed): with utilization threshold 0.55 and telemetry sampling
at 10% utilization, the pass that brings the usage window to exactly 30
samples of 0.1 does not evict, while the pass appending the 31st sample of
0.1 does evict — the low-average eviction fires only once the window
length strictly exceeds 30 with its average strictly below the threshold. -/
theorem underutilization_eviction_boundary (sinst : InstanceDetail) (tun : SSHTunnel)
    (usage29 usage30 : List ℚ)
    (hgpu : tdpLookup (toLowerStr sinst.gpu_name) = none)
    (h29 : usage29.length = 29) (_hall29 : ∀ x ∈ usage29, x = 1/10)
    (h30 : usage30.length = 30) (hall30 : ∀ x ∈ usage30, x = 1/10) :
    MonitorEvent.evict sinst.id ∉
      (monitorSession (11/20) { inst := sinst, sshTunnel := some tun }
        ⟨false, [[1, 10]]⟩ usage29).1 ∧
    MonitorEvent.evict sinst.id ∈
      (monitorSession (11/20) { inst := sinst, sshTunnel := some tun }
        ⟨false, [[1, 10]]⟩ usage30).1 := by
  have hpl : processLines (tdpLookup (toLowerStr sinst.gpu_name)) [[1, 10]]
      = ([(1 : ℚ)/10], false) := by
    rw [hgpu, processLines_none]
    simp [lineUtil]
  have havg1 : average [(1 : ℚ)/10] = 1/10 := by
    simp [average]
  have hupd29 : updateUsage usage29 ((1 : ℚ)/10) = usage29 ++ [(1 : ℚ)/10] := by
    have hc : ¬ ((usage29 ++ [(1 : ℚ)/10]).length > 60) := by simp [h29]
    simp only [updateUsage]
    rw [if_neg hc]
  have hupd30 : updateUsage usage30 ((1 : ℚ)/10) = usage30 ++ [(1 : ℚ)/10] := by
    have hc : ¬ ((usage30 ++ [(1 : ℚ)/10]).length > 60) := by simp [h30]
    simp only [updateUsage]
    rw [if_neg hc]
  have hchk29 : underutilized (11/20) (usage29 ++ [(1 : ℚ)/10]) = false := by
    simp [underutilized, h29]
  have hsum : (usage30 ++ [(1 : ℚ)/10]).sum = 31/10 := by
    rw [List.sum_append, sum_of_all_eq usage30 (1/10) hall30, h30]
    push_cast
    norm_num
  have hlen30 : (usage30 ++ [(1 : ℚ)/10]).length = 31 := by simp [h30]
  have havg30 : average (usage30 ++ [(1 : ℚ)/10]) = 1/10 := by
    rw [average, hsum, hlen30]
    norm_num
  have hchk30 : underutilized (11/20) (usage30 ++ [(1 : ℚ)/10]) = true := by
    simp only [underutilized, hlen30, havg30, Bool.and_eq_true, decide_eq_true_eq]
    norm_num
  constructor
  · intro hmem
    by_cases hex : sinst.actual_status = "exited" <;>
      simp [-one_div, monitorSession, hpl, havg1, hupd29, hchk29, hex] at hmem
  · simp [-one_div, monitorSession, hpl, havg1, hupd30, hchk30, List.mem_append]

/-- Witness for C7: an H100 session fed 10%-utilization telemetry — the
30th sample does not evict, the 31st does. -/
theorem underutilization_eviction_boundary_witness :
    MonitorEvent.evict 6 ∉
      (monitorSession (11/20) sess10 ⟨false, [[1, 10]]⟩
        (List.replicate 29 ((1 : ℚ)/10))).1 ∧
    MonitorEvent.evict 6 ∈
      (monitorSession (11/20) sess10 ⟨false, [[1, 10]]⟩
        (List.replicate 30 ((1 : ℚ)/10))).1 := by
  exact underutilization_eviction_boundary sess10.inst ⟨112, 10002, 4023, "2.3.4.5"⟩
    (List.replicate 29 ((1 : ℚ)/10)) (List.replicate 30 ((1 : ℚ)/10)) (by decide)
    (by simp) (fun x hx => List.eq_of_mem_replicate hx)
    (by simp) (fun x hx => List.eq_of_mem_replicate hx)

/-- countEvict distributes over append. -/
theorem countEvict_append (instanceId : Nat) (l1 l2 : List MonitorEvent) :
    countEvict instanceId (l1 ++ l2) =
      countEvict instanceId l1 + countEvict instanceId l2 := by
  induction l1 with
  | nil => simp [countEvict]
  | cons e rest ih =>
    cases e with
    | evict i =>
      by_cases hi : i = instanceId
      · simp [countEvict, hi, ih]
        try omega
      · simp [countEvict, hi, ih]
        try omega
    | terminate i => simp [countEvict, ih]

/-- An optional single eviction contributes at most one count. -/
theorem countEvict_ite_single (instanceId i : Nat) (c : Prop) [Decidable c] :
    countEvict instanceId (if c then [MonitorEvent.evict i] else []) ≤ 1 := by
  split <;> by_cases h : i = instanceId <;> simp [countEvict, h]

/-- An optional plain termination contributes no eviction count. -/
theorem countEvict_ite_terminate (instanceId i : Nat) (c : Prop) [Decidable c] :
    countEvict instanceId (if c then [MonitorEvent.terminate i] else []) = 0 := by
  split <;> simp [countEvict]

/-- The utilization step contributes at most one eviction count. -/
theorem countEvict_step_util (instanceId i : Nat) (c : Prop) [Decidable c]
    (c2 : Prop) [Decidable c2] (u u' : List ℚ) :
    countEvict instanceId
      ((if c then (([] : List MonitorEvent), u)
        else (if c2 then [MonitorEvent.evict i] else [], u')).1) ≤ 1 := by
  split
  · simp [countEvict]
  · exact countEvict_ite_single instanceId i c2

/-- C2 (amended, proved): within one monitor pass, each of the three health
checks (device-handle failure, underpowered GPU, underutilization) invokes
block-and-terminate at most once per session, so a session's instance
receives at most three evictions per cycle; the pass however does NOT stop
after its first eviction — see the counterexample, where one instance is
evicted twice in the same pass. -/
theorem monitor_session_evictions_bounded (th : ℚ) (sess : Session)
    (tel : TelemetryResult) (usage : List ℚ) :
    countEvict sess.inst.id (monitorSession th sess tel usage).1 ≤ 3 := by
  obtain ⟨sinst, stun⟩ := sess
  cases stun with
  | none => simp [monitorSession, countEvict]
  | some tun =>
    simp only [monitorSession]
    rw [countEvict_append, countEvict_append, countEvict_append]
    refine le_trans (Nat.add_le_add (Nat.add_le_add (Nat.add_le_add
      (countEvict_ite_single _ _ _) (countEvict_ite_single _ _ _))
      (countEvict_step_util _ _ _ _ _ _))
      (Nat.le_of_eq (countEvict_ite_terminate _ _ _))) (by norm_num)

/-- Counterexample for C2 as stated: one monitor pass over a single RTX
4090 session whose telemetry shows a healthy first GPU and an underpowered
second GPU, with a 30-sample low-utilization history: `blockAndTerminate`
is invoked twice for instance 7 in the same cycle (underpowered, then
underutilized) — the pass neither stops after the first eviction nor keeps
to at most one eviction per instance per cycle. -/
theorem monitor_double_eviction_same_instance :
    monitorAll (11/20) [(sess2c, tel2c)] usageStore2c
      = [MonitorEvent.evict 7, MonitorEvent.evict 7] := by
  have hlook : tdpLookup (toLowerStr "RTX 4090") = some 450 := by decide
  have hlt : ¬ ((450 : ℚ) < 450) := by norm_num
  have hc1 : underpoweredCheck (some (450 : ℚ)) 450 = false := by
    simp [underpoweredCheck, decide_eq_false hlt]
  have hne : (450 : ℚ) ≠ 0 := by norm_num
  have hlt2 : (300 : ℚ) < 450 := by norm_num
  have hc2 : underpoweredCheck (some (450 : ℚ)) 300 = true := by
    simp only [underpoweredCheck, Bool.and_eq_true, decide_eq_true_eq]
    exact ⟨hne, hlt2⟩
  have hpl : processLines (some (450 : ℚ)) [[45, 450], [45, 300]]
      = ([(45 : ℚ)/450], true) := by
    simp [processLines, hc1, hc2]
  have havg : average [(45 : ℚ)/450] = 1/10 := by
    simp [average]
    norm_num
  have hupd : updateUsage (List.replicate 30 ((1 : ℚ)/10)) (1/10)
      = List.replicate 30 ((1 : ℚ)/10) ++ [(1 : ℚ)/10] := by
    have hc : ¬ ((List.replicate 30 ((1 : ℚ)/10) ++ [(1 : ℚ)/10]).length > 60) := by simp
    simp only [updateUsage]
    rw [if_neg hc]
  have hsum : (List.replicate 30 ((1 : ℚ)/10)).sum = 3 := by
    rw [List.sum_replicate, nsmul_eq_mul]
    norm_num
  have havgU : average (List.replicate 30 ((1 : ℚ)/10) ++ [(1 : ℚ)/10]) = 1/10 := by
    rw [average, List.sum_append, hsum]
    simp
    norm_num
  have hchk : underutilized (11/20) (List.replicate 30 ((1 : ℚ)/10) ++ [(1 : ℚ)/10])
      = true := by
    simp only [underutilized, havgU, Bool.and_eq_true, decide_eq_true_eq]
    constructor
    · simp
    · norm_num
  simp [-one_div, -List.reduceReplicate, monitorAll, monitorSession, sess2c, tel2c,
    usageStore2c, hlook, hpl, havg, hupd, hchk]

end Smauto
